import Mathlib

/-!
Shallow embedding of the momxml package (lofar-obs-xml): angle handling
(`momxml/angles.py`), NDPPP pipeline validation and predecessor resolution
(`momxml/pipelines.py`), station set resolution (`momxml/utilities.py`),
source catalogue selection (`momxml/sourcecatalogue.py`), the specification
tree base class (`momxml/observationspecificationbase.py`), beam frequency
settings (`momxml/beam.py`) and observation construction
(`momxml/observation.py`).

Python floats are modelled as exact rationals; the float constant `math.pi`
is modelled as a parameter `piq : ℚ` (the round-trip and selection logic is
independent of its value).  Python exceptions are modelled with `Except`
over the `PyErr` type below.
-/

namespace Momxml

/-- A row of `SourceCatalogue.source_table` / `pulsar_table`
(`sourcecatalogue.py` lines 19-44): a list of aliases (`row[0]`), an
unsigned hours/minutes/seconds right ascension (`row[1]`) and a signed
degrees/minutes/seconds declination (`row[2]`). -/
structure SourceRow where
  names : List String
  ra_hms : ℚ × ℚ × ℚ
  dec_sdms : Char × ℚ × ℚ × ℚ
deriving DecidableEq

/-- Python exceptions raised by the embedded code paths.
`noSuitableSource` models `NoSuitableSourceError` of `sourcecatalogue.py`
(line 95); its payload keeps the data interpolated into the message: the
elevation bounds and the candidate list with the computed elevations. -/
inductive PyErr where
  | valueError (msg : String)
  | typeError (msg : String)
  | zeroDivisionError (msg : String)
  | indexError (msg : String)
  | invalidStationSet (msg : String)
  | noSuitableSource (min_el max_el : ℚ) (source_elevation_pairs : List (SourceRow × ℚ))
deriving DecidableEq

deriving instance DecidableEq for Except

/-- `signum` of `angles.py` lines 7-36: -1 for strictly negative numbers,
+1 otherwise (zero counts as non-negative). -/
def signum (number : ℚ) : ℤ :=
  if number < 0 then -1 else 1

/-- `sign_char` of `angles.py` lines 39-65: index `1 + signum(number)` into
the list `['-', None, '+']`, so strictly negative numbers give `'-'` and all
others give `'+'`. -/
def sign_char (number : ℚ) : Char :=
  if signum number = -1 then '-' else '+'

/-- `int_from_sign_char` of `angles.py` lines 68-103: maps `'+'` to 1 and
`'-'` to -1, raising `ValueError` for any other character. -/
def int_from_sign_char (c : Char) : Except PyErr ℤ :=
  if c = '+' then Except.ok 1
  else if c = '-' then Except.ok (-1)
  else Except.error (PyErr.valueError ("char must be either + or -, not " ++ toString c))

/-- `Angle.set_shms` of `angles.py` lines 177-180, with `math.pi` as the
parameter `piq`.  The stored radian value is
`sgn * pi * (hours + minutes/60 + seconds/3600) / 12`. -/
def set_shms (piq : ℚ) (sign : Char) (hours minutes seconds : ℚ) : Except PyErr ℚ :=
  (int_from_sign_char sign).map
    (fun sgn => (sgn : ℚ) * piq * (hours + minutes / 60 + seconds / 3600) / 12)

/-- `Angle.set_sdms` of `angles.py` lines 183-186: as `set_shms` but with
180 in place of 12. -/
def set_sdms (piq : ℚ) (sign : Char) (degrees minutes seconds : ℚ) : Except PyErr ℚ :=
  (int_from_sign_char sign).map
    (fun sgn => (sgn : ℚ) * piq * (degrees + minutes / 60 + seconds / 3600) / 180)

/-- `Angle.set_deg` of `angles.py` lines 189-191. -/
def set_deg (piq : ℚ) (deg : ℚ) : ℚ := deg * piq / 180

/-- `Angle.set_rad` of `angles.py` lines 194-196. -/
def set_rad (rad : ℚ) : ℚ := rad

/-- `Angle.as_rad` of `angles.py` lines 199-200. -/
def as_rad (rad : ℚ) : ℚ := rad

/-- `Angle.as_deg` of `angles.py` lines 203-204. -/
def as_deg (piq : ℚ) (rad : ℚ) : ℚ := rad * 180 / piq

/-- `Angle.as_shms` of `angles.py` lines 207-215: floor-based decomposition
of the absolute radian value converted to hours; returns the sign
character, whole hours, whole minutes and fractional seconds. -/
def as_shms (piq : ℚ) (rad : ℚ) : Char × ℤ × ℤ × ℚ :=
  let sgn := sign_char rad
  let abs_rad := |rad|
  let in_hours := abs_rad * 12 / piq
  let hours := ⌊in_hours⌋
  let in_minutes := (in_hours - (hours : ℚ)) * 60
  let minutes := ⌊in_minutes⌋
  let in_seconds := (in_minutes - (minutes : ℚ)) * 60
  (sgn, hours, minutes, in_seconds)

/-- `Angle.as_sdms` of `angles.py` lines 217-225: as `as_shms` but in
degrees. -/
def as_sdms (piq : ℚ) (rad : ℚ) : Char × ℤ × ℤ × ℚ :=
  let sgn := sign_char rad
  let abs_rad := |rad|
  let in_degrees := abs_rad * 180 / piq
  let degrees := ⌊in_degrees⌋
  let in_minutes := (in_degrees - (degrees : ℚ)) * 60
  let minutes := ⌊in_minutes⌋
  let in_seconds := (in_minutes - (minutes : ℚ)) * 60
  (sgn, degrees, minutes, in_seconds)

/-- Reconstruction of an angle from the result of `as_shms`, i.e.
`Angle(shms = other.as_shms())` with the integer hour and minute fields
passed back into `set_shms`. -/
def roundtrip_shms (piq : ℚ) (rad : ℚ) : Except PyErr ℚ :=
  let t := as_shms piq rad
  set_shms piq t.1 (t.2.1 : ℚ) (t.2.2.1 : ℚ) t.2.2.2

/-- Reconstruction of an angle from the result of `as_sdms`. -/
def roundtrip_sdms (piq : ℚ) (rad : ℚ) : Except PyErr ℚ :=
  let t := as_sdms piq rad
  set_sdms piq t.1 (t.2.1 : ℚ) (t.2.2.1 : ℚ) t.2.2.2

/-- `Angle.__init__` of `angles.py` lines 159-172: counts how many of the
four optional arguments are `None`; unless exactly three are `None` (i.e.
exactly one argument was supplied) it raises `ValueError`.  Otherwise the
radian value starts at 0.0 and each supplied argument is applied through
its setter in the order shms, sdms, rad, deg. -/
def angle_init (piq : ℚ) (shms sdms : Option (Char × ℚ × ℚ × ℚ))
    (rad deg : Option ℚ) : Except PyErr ℚ :=
  let none_count := [shms.isNone, sdms.isNone, rad.isNone, deg.isNone].count true
  if none_count ≠ 3 then
    Except.error (PyErr.valueError "Specify exactly none of shms, sdms, rad, or deg.")
  else do
    let r : ℚ := 0
    let r ← match shms with
      | none => Except.ok r
      | some (sg, h, m, s) => set_shms piq sg h m s
    let r ← match sdms with
      | none => Except.ok r
      | some (sg, d, m, s) => set_sdms piq sg d m s
    let r := match rad with
      | none => r
      | some v => set_rad v
    let r := match deg with
      | none => r
      | some v => set_deg piq v
    Except.ok r

/-- `NDPPP.validate` of `pipelines.py` lines 99-121.  The steps are typed
`ℤ`, so the `typecheck(..., int, ...)` calls succeed; Python `%` on
integers is floored modulo (`Int.fmod`) and raises `ZeroDivisionError`
when the divisor is zero. -/
def ndppp_validate (avg_freq_step avg_time_step demix_freq_step demix_time_step : ℤ) :
    Except PyErr Unit :=
  if avg_freq_step = 0 then
    Except.error (PyErr.zeroDivisionError "integer division or modulo by zero")
  else if Int.fmod demix_freq_step avg_freq_step ≠ 0 then
    Except.error (PyErr.valueError
      ("NDPPP.demix_freq_step(" ++ toString demix_freq_step ++
       ") is not a multiple of NDPPP.avg_freq_step(" ++ toString avg_freq_step ++ ")"))
  else if avg_time_step = 0 then
    Except.error (PyErr.zeroDivisionError "integer division or modulo by zero")
  else if Int.fmod demix_time_step avg_time_step ≠ 0 then
    Except.error (PyErr.valueError
      ("NDPPP.demix_time_step(" ++ toString demix_time_step ++
       ") is not a multiple of NDPPP.avg_time_step(" ++ toString avg_time_step ++ ")"))
  else
    Except.ok ()

/-- The demixing and averaging parameters held by a validated `NDPPP`
instance (`pipelines.py` lines 79-95). -/
structure NDPPP where
  avg_freq_step : ℤ
  avg_time_step : ℤ
  demix_freq_step : ℤ
  demix_time_step : ℤ
  demix_always : Option (List String)
  demix_if_needed : Option (List String)
  ignore_target : Option Bool
deriving DecidableEq

/-- `NDPPP.__init__` of `pipelines.py` lines 79-95: stores the parameters
and eagerly calls `validate()`. -/
def ndppp_init (avg_freq_step avg_time_step demix_freq_step demix_time_step : ℤ)
    (demix_always demix_if_needed : Option (List String)) (ignore_target : Option Bool) :
    Except PyErr NDPPP :=
  (ndppp_validate avg_freq_step avg_time_step demix_freq_step demix_time_step).map
    (fun _ => ⟨avg_freq_step, avg_time_step, demix_freq_step, demix_time_step,
               demix_always, demix_if_needed, ignore_target⟩)

/-- `superterp` station list, `utilities.py` line 235. -/
def superterp : List String := ["CS002", "CS003", "CS004", "CS005", "CS006", "CS007"]

/-- `core` station list, `utilities.py` lines 236-240. -/
def core : List String :=
  ["CS001"] ++ superterp ++
  ["CS011", "CS013", "CS017", "CS021", "CS024", "CS026", "CS028", "CS030",
   "CS031", "CS032", "CS101", "CS103", "CS201", "CS301", "CS302", "CS401", "CS501"]

/-- `remote` station list, `utilities.py` lines 241-242. -/
def remote : List String :=
  ["RS106", "RS205", "RS208", "RS210", "RS305", "RS306", "RS307",
   "RS310", "RS406", "RS407", "RS409", "RS503", "RS508", "RS509"]

/-- `netherlands` station list, `utilities.py` line 243. -/
def netherlands : List String := core ++ remote

/-- `europe` station list, `utilities.py` lines 244-245. -/
def europe : List String :=
  ["DE601", "DE602", "DE603", "DE604", "DE605", "FR606", "SE607", "UK608"]

/-- `all_stations`, `utilities.py` line 246. -/
def all_stations : List String := netherlands ++ europe

/-- The `lookup_table` of `station_list`, `utilities.py` lines 248-254.
Note the key for the European stations is `"eu"`. -/
def lookup_table (station_set : String) : Option (List String) :=
  if station_set = "superterp" then some superterp
  else if station_set = "core" then some core
  else if station_set = "remote" then some remote
  else if station_set = "nl" then some netherlands
  else if station_set = "eu" then some europe
  else if station_set = "all" then some all_stations
  else if station_set = "none" then some []
  else none

/-- `station_list` of `utilities.py` lines 187-268: resolves the station
set name through `lookup_table` (`KeyError` becomes
`InvalidStationSetError` naming the set), appends upper-cased includes,
deduplicates, removes upper-cased excludes, and returns the sorted list.
Python `sorted` is a stable ascending sort, modelled by `insertionSort`. -/
def station_list (station_set : String) (incl excl : Option (List String)) :
    Except PyErr (List String) :=
  let include_list := match incl with
    | none => []
    | some l => l.map String.toUpper
  match lookup_table station_set with
  | none => Except.error (PyErr.invalidStationSet (station_set ++ " is not a valid station set."))
  | some base =>
    let superset := (base ++ include_list).dedup
    let exclude_list := match excl with
      | none => []
      | some l => l.map String.toUpper
    Except.ok (List.insertionSort (fun a b => a ≤ b)
      (superset.filter (fun s => !(exclude_list.contains s))))

/-- A root observation node as used by `AveragingPipeline.predecessor`: an
`ObservationSpecificationBase` node without a parent, whose `label()`
(`observationspecificationbase.py` lines 132-142) is `str(self.name)`. -/
structure ObsNode where
  name : String
deriving DecidableEq

/-- `label()` of a parentless node, `observationspecificationbase.py`
line 142. -/
def ObsNode.label (o : ObsNode) : String := o.name

/-- An input data product (sub-array pointing) of an `AveragingPipeline`:
what `predecessor` needs of it is its `parent` back-reference. -/
structure InputSAP where
  parent : Option ObsNode
deriving DecidableEq

/-- `AveragingPipeline.predecessor` of `pipelines.py` lines 290-303: if an
explicit `predecessor_label` was given, return it; otherwise collect the
distinct labels (`unique`, i.e. `list(set(...))`) of the non-`None`
parents of the input data products, raise `ValueError` unless there is
exactly one, and return it. -/
def predecessor (predecessor_label : Option String) (input_data : List InputSAP) :
    Except PyErr String :=
  match predecessor_label with
  | some lbl => Except.ok lbl
  | none =>
    let predecessor_observations :=
      ((input_data.filterMap InputSAP.parent).map ObsNode.label).dedup
    if predecessor_observations.length ≠ 1 then
      Except.error (PyErr.valueError
        ("AveragingPipeline: more than one predecessor (" ++
         toString predecessor_observations ++ ")"))
    else
      Except.ok predecessor_observations.head!

/-- A target source as constructed by `target_source_from_row`
(`sourcecatalogue.py` lines 7-10): a name with J2000 coordinates stored in
radians. -/
structure TargetSource where
  name : String
  ra_rad : ℚ
  dec_rad : ℚ
deriving DecidableEq

/-- `target_source_from_row` of `sourcecatalogue.py` lines 7-10:
`TargetSource(name = row[0][0], ra_angle = Angle(shms = ('+',) + row[1]),
dec_angle = Angle(sdms = row[2]))`.  `row[0][0]` raises `IndexError` when
the alias list is empty. -/
def target_source_from_row (piq : ℚ) (row : SourceRow) : Except PyErr TargetSource :=
  match row.names with
  | [] => Except.error (PyErr.indexError "list index out of range")
  | n :: _ => do
    let ra ← angle_init piq (some ('+', row.ra_hms.1, row.ra_hms.2.1, row.ra_hms.2.2))
      none none none
    let dec ← angle_init piq none (some row.dec_sdms) none none
    Except.ok ⟨n, ra, dec⟩

/-- `SourceCatalogue.closest_to_meridian` of `sourcecatalogue.py` lines
58-95.  The loop over the rows (lines 71-77) executes
`Angle(hms = source[1])` as its first failing expression; `Angle.__init__`
(`angles.py` line 159) accepts only the keyword arguments `shms`, `sdms`,
`rad` and `deg`, so for every non-empty source list the call raises
`TypeError` before any elevation is computed or any selection is made.
With an empty source list the loop is skipped, the elevation defaults are
applied (`min_elevation_deg`/`max_elevation_deg` are tested for Python
truthiness, so `None` and `0.0` both fall back to the defaults 0.0 and
90.00001), the selection loop over the sorted pairs finds nothing, and
`NoSuitableSourceError` is raised with the (empty) candidate
enumeration. -/
def closest_to_meridian (piq : ℚ) (sources : List SourceRow)
    (min_elevation_deg max_elevation_deg : Option ℚ) : Except PyErr TargetSource :=
  match sources with
  | _ :: _ =>
    Except.error (PyErr.typeError "__init__() got an unexpected keyword argument hms")
  | [] =>
    let source_elevation_pairs : List (SourceRow × ℚ) := []
    let min_el : ℚ := match min_elevation_deg with
      | none => 0
      | some v => if v = 0 then 0 else v
    let max_el : ℚ := match max_elevation_deg with
      | none => 9000001 / 100000
      | some v => if v = 0 then 9000001 / 100000 else v
    match source_elevation_pairs.find?
        (fun p => decide (min_el < p.2) && decide (p.2 < max_el)) with
    | some p => target_source_from_row piq p.1
    | none => Except.error (PyErr.noSuitableSource min_el max_el source_elevation_pairs)

/-- Python `string.split('\n')` on the character list of a string: always
returns at least one (possibly empty) line. -/
def split_lines : List Char → List (List Char)
  | [] => [[]]
  | c :: rest =>
    match split_lines rest with
    | [] => [[]]
    | l :: ls => if c = '\n' then [] :: l :: ls else (c :: l) :: ls

/-- Python `'\n'.join(lines)` on character lists. -/
def join_lines : List (List Char) → List Char
  | [] => []
  | [l] => l
  | l :: ls => l ++ '\n' :: join_lines ls

/-- `indent` of `observationspecificationbase.py` lines 6-33: split into
lines, prepend `amount` spaces to each line when `amount` is positive,
drop the first `-amount` characters of each line (`line[-amount:]`) when
negative, and re-join with newlines. -/
def indent (s : String) (amount : ℤ) : String :=
  let lines := split_lines s.data
  let lines := if 0 < amount then
      lines.map (fun line => List.replicate amount.toNat ' ' ++ line)
    else lines
  let lines := if amount < 0 then
      lines.map (fun line => line.drop (-amount).toNat)
    else lines
  String.mk (join_lines lines)

/-- A specification tree node (`ObservationSpecificationBase`): the virtual
methods `xml_prefix` and `xml_suffix` are modelled as functions of the
project name, and `children` as a list (Python `None` and `[]` are both
falsy and behave identically in `xml` and `child_id`). -/
inductive OSB where
  | node : (String → String) → (String → String) → List OSB → OSB

/-- Python `'\n'.join(strings)`. -/
def join_with_newlines : List String → String
  | [] => ""
  | [s] => s
  | s :: rest => s ++ "\n" ++ join_with_newlines rest

mutual

/-- `ObservationSpecificationBase.xml` of
`observationspecificationbase.py` lines 113-127, with the node's
`tree_depth()` passed explicitly (a child is one level deeper than its
parent).  Line 119 emits `xml_prefix`; lines 120-125 emit, when children
exist, a `<children>` block of indexed `<item>`-wrapped recursive child
XML; line 126 then appends `self.xml_prefix(project_name)` a second time
(`xml_suffix` is never called); line 127 indents the whole fragment by
`2 * tree_depth()`. -/
def OSB.xml (project_name : String) (tree_depth : ℕ) : OSB → String
  | OSB.node pre _suf children =>
    let xml_string := pre project_name
    let xml_string :=
      if children.isEmpty then xml_string
      else
        xml_string ++ "\n<children>" ++
          join_with_newlines (OSB.xml_items project_name tree_depth 0 children) ++
          "\n</children>"
    indent (xml_string ++ pre project_name) (2 * (tree_depth : ℤ))

/-- The list of `'\n<item index="%d">\n%s\n</item>'` fragments built from
the children in `ObservationSpecificationBase.xml` lines 122-124. -/
def OSB.xml_items (project_name : String) (tree_depth : ℕ) (index : ℕ) :
    List OSB → List String
  | [] => []
  | c :: rest =>
    ("\n<item index=\"" ++ toString index ++ "\">\n" ++
      OSB.xml project_name (tree_depth + 1) c ++ "\n</item>") ::
    OSB.xml_items project_name tree_depth (index + 1) rest

end

/-- `ObservationSpecificationBase.child_id` of
`observationspecificationbase.py` lines 146-161: with an absent or empty
children list it raises `ValueError`; otherwise it evaluates the list
comprehension `[id[child] for child in self.children]`, whose first
iteration subscripts the *builtin function* `id` and therefore raises
`TypeError` before `.index(instance)` is ever reached. -/
def child_id {α : Type} (children : Option (List α)) (_instance : α) : Except PyErr ℕ :=
  match children with
  | none =>
    Except.error (PyErr.valueError "ObservationSpecificationBase.child_id(): instance is not in list")
  | some l =>
    if l.length = 0 then
      Except.error (PyErr.valueError "ObservationSpecificationBase.child_id(): instance is not in list")
    else
      Except.error (PyErr.typeError "builtin_function_or_method object is not subscriptable")

/-- The per-beam data of `observation.py`'s `Beam` (lines 58-79) that the
observation XML loop reads: target source name and coordinates, subband
specification string and measurement type. -/
structure BeamV where
  target_source_name : String
  ra_deg : ℚ
  dec_deg : ℚ
  subband_spec : String
  measurement_type : String
deriving DecidableEq

/-- A heap of Python `Beam` objects: addresses below `next` are allocated.
Mutating a `Beam` object in place is `Heap.set` at its address. -/
structure Heap where
  data : ℕ → BeamV
  next : ℕ

/-- Overwrite the object at address `a` (in-place mutation of a Python
object). -/
def Heap.set (h : Heap) (a : ℕ) (v : BeamV) : Heap :=
  ⟨fun x => if x = a then v else h.data x, h.next⟩

/-- Dereference a list of addresses. -/
def Heap.derefList (h : Heap) (addrs : List ℕ) : List BeamV :=
  addrs.map h.data

/-- `copy.deepcopy(beam_list)` as called by `Observation.__init__`
(`observation.py` line 340): every beam object in the list is copied to a
fresh address and the copies are collected in a fresh list. -/
def deepcopy_beams (h : Heap) (addrs : List ℕ) : Heap × List ℕ :=
  match addrs with
  | [] => (h, [])
  | a :: rest =>
    let h1 : Heap := ⟨fun x => if x = h.next then h.data a else h.data x, h.next + 1⟩
    let (h2, rest2) := deepcopy_beams h1 rest
    (h2, h.next :: rest2)

/-- The beam-list part of `Observation.__init__` (`observation.py` lines
312-345): the stored `self.beam_list` is `copy.deepcopy(beam_list)`. -/
def observation_init_beam_list (h : Heap) (beam_list : List ℕ) : Heap × List ℕ :=
  deepcopy_beams h beam_list

/-- One `<item index="%d">` measurement fragment of `Observation.xml`
(`observation.py` lines 425-462), as a function of the loop index, the
beam object's current field values, and the beam-independent strings
(backend measurement type and attributes, observation name, status
timestamp, duration). -/
def observation_beam_item_xml (index : ℕ) (backend_measurement_type obs_name timestamp
    backend_attributes mom_dur tied_array_beam_list : String) (beam : BeamV) : String :=
  "\n            <item index=\"" ++ toString index ++ "\">\n" ++
  "              <lofar:measurement xsi:type=\"" ++ backend_measurement_type ++ "\">\n" ++
  "                <name>" ++ beam.target_source_name ++ "</name>\n" ++
  "                <description>" ++ obs_name ++ "</description>\n" ++
  "                <statusHistory>\n                  <item index=\"0\">\n" ++
  "                    <mom2ObjectStatus>\n                      <name>Brentjens,  Michiel</name>\n" ++
  "                      <roles>Friend</roles>\n                      <user id=\"791\"/>\n" ++
  "                      <timeStamp>" ++ timestamp ++ "</timeStamp>\n" ++
  "                      <mom2:openedStatus/>\n                    </mom2ObjectStatus>\n" ++
  "                  </item>\n                </statusHistory>\n" ++
  "                <currentStatus>\n                  <mom2:openedStatus/>\n                </currentStatus>\n" ++
  "                <lofar:" ++ backend_attributes ++ ">\n" ++
  "                  <measurementType>" ++ beam.measurement_type ++ "</measurementType>\n" ++
  "                  <specification>\n" ++
  "                    <targetName>" ++ beam.target_source_name ++ "</targetName>\n" ++
  "                    <ra>" ++ toString beam.ra_deg ++ "</ra>\n" ++
  "                    <dec>" ++ toString beam.dec_deg ++ "</dec>\n" ++
  "                    <equinox>J2000</equinox>\n" ++
  "                    <duration>" ++ mom_dur ++ "</duration>\n" ++
  "                    <subbandsSpecification>\n" ++
  "                      <bandWidth unit=\"MHz\">48.4375</bandWidth>\n" ++
  "                      <centralFrequency unit=\"MHz\">139.21875</centralFrequency>\n" ++
  "                      <contiguous>false</contiguous>\n" ++
  "                      <subbands>" ++ beam.subband_spec ++ "</subbands>\n" ++
  "                    </subbandsSpecification>" ++ tied_array_beam_list ++ "\n" ++
  "                  </specification>\n" ++
  "                </lofar:" ++ backend_attributes ++ ">\n" ++
  "              </lofar:measurement>\n            </item>"

/-- The `<children>` body of `Observation.xml`: the concatenation of the
per-beam fragments over the observation's stored beam list, dereferenced
in the current heap. -/
def observation_children_xml (h : Heap) (beam_addrs : List ℕ) (backend_measurement_type
    obs_name timestamp backend_attributes mom_dur tied_array_beam_list : String) : String :=
  String.join ((h.derefList beam_addrs).enum.map
    (fun bv => observation_beam_item_xml bv.1 backend_measurement_type obs_name timestamp
      backend_attributes mom_dur tied_array_beam_list bv.2))

/-- `parse_subband_list` applied in `Beam.xml_prefix` (`beam.py` line 144)
yields the beam's list of integer sub-band indices; the frequency numbers
are computed from it in lines 145-151.  `beam_bandwidth_mhz` is line 145:
`len(sub_bands) * (clock_mhz / 1024.0)`. -/
def beam_bandwidth_mhz (clock_mhz : ℚ) (sub_bands : List ℤ) : ℚ :=
  (sub_bands.length : ℚ) * (clock_mhz / 1024)

/-- `mean_sub_band` of `beam.py` line 146: `sum(sub_bands)/float(len(sub_bands))`. -/
def beam_mean_sub_band (sub_bands : List ℤ) : ℚ :=
  ((sub_bands.map (fun sb => (sb : ℚ))).sum) / (sub_bands.length : ℚ)

/-- `central_frequency_mhz` of `beam.py` lines 147-151: the mean sub-band
scaled by `clock_mhz/1024`, plus `clock_mhz/2` when the parent
observation's frequency range is `'HBA_LOW'`, plus `clock_mhz` when it is
`'HBA_MID'` or `'HBA_HIGH'` (two separate `if` statements). -/
def beam_central_frequency_mhz (clock_mhz : ℚ) (frequency_range : String)
    (sub_bands : List ℤ) : ℚ :=
  let central := beam_mean_sub_band sub_bands * (clock_mhz / 1024)
  let central := if frequency_range = "HBA_LOW" then central + clock_mhz / 2 else central
  let central :=
    if frequency_range = "HBA_MID" ∨ frequency_range = "HBA_HIGH" then central + clock_mhz
    else central
  central

/-- `label()` of a node that has a parent
(`observationspecificationbase.py` lines 137-141):
`'%s.%d.%s' % (self.parent.label(), self.parent.child_id(self), str(self.name))`,
with the parent a root node (`parent.label()` is its name).  The
`child_id` call is evaluated before the string is assembled. -/
def beam_label {α : Type} (parent_label : String) (parent_children : Option (List α))
    (beam : α) (name : String) : Except PyErr String :=
  (child_id parent_children beam).map
    (fun i => parent_label ++ "." ++ toString i ++ "." ++ name)

/-- `Beam.xml_prefix` of `beam.py` lines 115-194, on the default
(interferometer) backend path: `need_beam_observation()` is false, so
line 142 interpolates `self.label() + '.dps'` into the result data
products block before the sub-band computations of lines 144-151 are
reached; on the beam-observation path the same `self.label()` is
evaluated at line 157 instead.  The success payload carries the data the
claim is about: the result-data-product label and the bandwidth and
central frequency interpolated into the emitted XML. -/
def beam_xml_prefix {α : Type} (parent_label : String) (parent_children : Option (List α))
    (beam : α) (name : String) (clock_mhz : ℚ) (frequency_range : String)
    (sub_bands : List ℤ) : Except PyErr (String × ℚ × ℚ) := do
  let lbl ← beam_label parent_label parent_children beam name
  let bandwidth_mhz := beam_bandwidth_mhz clock_mhz sub_bands
  let central_frequency_mhz := beam_central_frequency_mhz clock_mhz frequency_range sub_bands
  Except.ok (lbl ++ ".dps", bandwidth_mhz, central_frequency_mhz)

end Momxml

namespace Momxml

/-- Helper: Python integer `%` (floored modulo) is zero exactly on exact
multiples. -/
theorem fmod_eq_zero_iff_dvd (a b : ℤ) : Int.fmod a b = 0 ↔ b ∣ a := by
  constructor
  · intro h0
    refine ⟨Int.fdiv a b, ?_⟩
    have h := Int.fmod_add_fdiv a b
    rw [h0, zero_add] at h
    exact h.symm
  · rintro ⟨c, rfl⟩
    exact Int.mul_fmod_right b c

/-- C2: `ObservationSpecificationBase.child_id` cannot return an index.
With a non-empty children list that contains the requested instance
(here the list `[0]` and the instance `0`), the list comprehension
`[id[child] for child in self.children]` of line 161 subscripts the
builtin function `id` and raises `TypeError`, whereas the claim requires
the successful result index `0`. -/
theorem child_id_raises_type_error :
    child_id (some [(0 : ℕ)]) 0 =
      Except.error (PyErr.typeError "builtin_function_or_method object is not subscriptable") ∧
    child_id (none : Option (List ℕ)) 0 =
      Except.error (PyErr.valueError
        "ObservationSpecificationBase.child_id(): instance is not in list") := by
  constructor
  · decide
  · decide

/-- C4: `SourceCatalogue.closest_to_meridian` never reaches its selection
logic.  On the claim's own example — a table holding a 45-degree source
and a below-horizon source, with bounds 0 and 90 — the call raises
`TypeError` because line 74 of `sourcecatalogue.py` constructs
`Angle(hms = source[1])` and `Angle.__init__` has no `hms` argument; the
claim instead requires the 45-degree `TargetSource`.  Only with an empty
table does the function reach its `NoSuitableSourceError`, whose payload
then enumerates the (empty) candidate list. -/
theorem closest_to_meridian_raises_type_error :
    closest_to_meridian 3
        [⟨["45 deg source"], (3, 0, 0), ('+', 45, 0, 0)⟩,
         ⟨["below horizon"], (15, 0, 0), ('-', 45, 0, 0)⟩]
        (some 0) (some 90) =
      Except.error (PyErr.typeError "__init__() got an unexpected keyword argument hms") ∧
    closest_to_meridian 3 [] (some 0) (some 90) =
      Except.error (PyErr.noSuitableSource 0 90 []) := by
  constructor
  · decide
  · decide

/-- C6 counterexample: at `NDPPP(avg_freq_step=16, avg_time_step=0,
demix_freq_step=64, demix_time_step=10)` the demix time step 10 is not an
exact multiple of the averaging time step 0, so the claim requires a
`ValueError`; the construction instead fails with `ZeroDivisionError`
raised by the `%` of `pipelines.py` line 116. -/
theorem ndppp_zero_step_zero_division :
    ndppp_init 16 0 64 10 none none none =
      Except.error (PyErr.zeroDivisionError "integer division or modulo by zero") := by
  decide

/-- C6 amended: for integer steps with non-zero averaging steps,
`NDPPP.__init__` succeeds exactly when `demix_freq_step` is an exact
multiple of `avg_freq_step` and `demix_time_step` is an exact multiple of
`avg_time_step`, and otherwise fails eagerly at construction with the
corresponding `ValueError`. -/
theorem ndppp_init_validates_multiples (avg_freq_step avg_time_step demix_freq_step
    demix_time_step : ℤ) (demix_always demix_if_needed : Option (List String))
    (ignore_target : Option Bool)
    (hf : avg_freq_step ≠ 0) (ht : avg_time_step ≠ 0) :
    ((ndppp_init avg_freq_step avg_time_step demix_freq_step demix_time_step
        demix_always demix_if_needed ignore_target).isOk ↔
      (avg_freq_step ∣ demix_freq_step ∧ avg_time_step ∣ demix_time_step)) ∧
    (¬ avg_freq_step ∣ demix_freq_step →
      ndppp_init avg_freq_step avg_time_step demix_freq_step demix_time_step
        demix_always demix_if_needed ignore_target =
      Except.error (PyErr.valueError
        ("NDPPP.demix_freq_step(" ++ toString demix_freq_step ++
         ") is not a multiple of NDPPP.avg_freq_step(" ++ toString avg_freq_step ++ ")"))) ∧
    (avg_freq_step ∣ demix_freq_step → ¬ avg_time_step ∣ demix_time_step →
      ndppp_init avg_freq_step avg_time_step demix_freq_step demix_time_step
        demix_always demix_if_needed ignore_target =
      Except.error (PyErr.valueError
        ("NDPPP.demix_time_step(" ++ toString demix_time_step ++
         ") is not a multiple of NDPPP.avg_time_step(" ++ toString avg_time_step ++ ")"))) := by
  have hfd : (Int.fmod demix_freq_step avg_freq_step = 0) ↔ avg_freq_step ∣ demix_freq_step :=
    fmod_eq_zero_iff_dvd _ _
  have htd : (Int.fmod demix_time_step avg_time_step = 0) ↔ avg_time_step ∣ demix_time_step :=
    fmod_eq_zero_iff_dvd _ _
  refine ⟨?_, ?_, ?_⟩
  · by_cases h1 : Int.fmod demix_freq_step avg_freq_step = 0 <;>
      by_cases h2 : Int.fmod demix_time_step avg_time_step = 0 <;>
      simp [ndppp_init, ndppp_validate, hf, ht, h1, h2, Except.isOk, Except.toBool,
        Except.map, ← hfd, ← htd]
  · intro hnd
    have h1 : Int.fmod demix_freq_step avg_freq_step ≠ 0 := fun h => hnd (hfd.mp h)
    simp [ndppp_init, ndppp_validate, Except.map, hf, ht, h1]
  · intro hdf hnd
    have h1 : Int.fmod demix_freq_step avg_freq_step = 0 := hfd.mpr hdf
    have h2 : Int.fmod demix_time_step avg_time_step ≠ 0 := fun h => hnd (htd.mp h)
    simp [ndppp_init, ndppp_validate, Except.map, hf, ht, h1, h2]

/-- C6 witness: the claim's own example `NDPPP(avg_freq_step=16,
avg_time_step=2, demix_freq_step=64, demix_time_step=5)` fails with the
`ValueError` naming 5 as not a multiple of 2, by the amended theorem. -/
theorem ndppp_init_validates_multiples_witness :
    (16 : ℤ) ≠ 0 ∧ (2 : ℤ) ≠ 0 ∧
    (((ndppp_init 16 2 64 5 none none none).isOk ↔ ((16 : ℤ) ∣ 64 ∧ (2 : ℤ) ∣ 5)) ∧
     (¬ (16 : ℤ) ∣ 64 →
       ndppp_init 16 2 64 5 none none none =
       Except.error (PyErr.valueError
         ("NDPPP.demix_freq_step(" ++ toString (64 : ℤ) ++
          ") is not a multiple of NDPPP.avg_freq_step(" ++ toString (16 : ℤ) ++ ")"))) ∧
     ((16 : ℤ) ∣ 64 → ¬ (2 : ℤ) ∣ 5 →
       ndppp_init 16 2 64 5 none none none =
       Except.error (PyErr.valueError
         ("NDPPP.demix_time_step(" ++ toString (5 : ℤ) ++
          ") is not a multiple of NDPPP.avg_time_step(" ++ toString (2 : ℤ) ++ ")")))) :=
  ⟨by decide, by decide,
   ndppp_init_validates_multiples 16 2 64 5 none none none (by decide) (by decide)⟩

/-- C7 counterexample: the resolver rejects the set name `europe` that the
claim's enumeration contains, and accepts the name `eu` that the claim's
enumeration omits. -/
theorem station_list_europe_invalid :
    station_list "europe" none none =
      Except.error (PyErr.invalidStationSet "europe is not a valid station set.") ∧
    (station_list "eu" none none).isOk = true := by
  constructor
  · decide
  · decide

/-- Helper: `lookup_table` is populated exactly at the seven valid set
names. -/
theorem lookup_table_isSome_iff (station_set : String) :
    (lookup_table station_set).isSome = true ↔
      station_set ∈ (["superterp", "core", "remote", "nl", "eu", "all", "none"] :
        List String) := by
  unfold lookup_table
  split_ifs with h1 h2 h3 h4 h5 h6 h7 <;> simp_all

/-- C7 amended: `station_list` succeeds exactly when the set name is one
of `superterp`, `core`, `remote`, `nl`, `eu`, `all`, `none`, and for every
other set name fails with an `InvalidStationSetError` naming the invalid
set. -/
theorem station_list_valid_sets (station_set : String) (incl excl : Option (List String)) :
    ((station_list station_set incl excl).isOk ↔
      station_set ∈ (["superterp", "core", "remote", "nl", "eu", "all", "none"] :
        List String)) ∧
    (station_set ∉ (["superterp", "core", "remote", "nl", "eu", "all", "none"] :
        List String) →
      station_list station_set incl excl =
        Except.error (PyErr.invalidStationSet
          (station_set ++ " is not a valid station set."))) := by
  constructor
  · rw [← lookup_table_isSome_iff]
    cases hl : lookup_table station_set <;>
      simp [station_list, hl, Except.isOk, Except.toBool]
  · intro hmem
    have hl : lookup_table station_set = none := by
      have hns := (lookup_table_isSome_iff station_set).not.mpr hmem
      cases hcase : lookup_table station_set
      · rfl
      · rw [hcase] at hns
        simp at hns
    simp [station_list, hl]

/-- C7 witness: the invalid set name `wsrt` is rejected with the error of
the amended theorem. -/
theorem station_list_valid_sets_witness :
    ("wsrt" : String) ∉ (["superterp", "core", "remote", "nl", "eu", "all", "none"] :
      List String) ∧
    station_list "wsrt" none none =
      Except.error (PyErr.invalidStationSet "wsrt is not a valid station set.") :=
  ⟨by decide, (station_list_valid_sets "wsrt" none none).2 (by decide)⟩

end Momxml

namespace Momxml

/-- Helper: the sub-band arithmetic of `beam.py` lines 145-151 in
isolation matches the spec's offset table: the bandwidth equals
`len(sub_bands) * clock_mhz/1024` MHz, and the central frequency equals
`mean(sub_bands) * clock_mhz/1024` MHz plus `clock_mhz/2` for frequency
range `HBA_LOW`, plus `clock_mhz` for `HBA_MID` or `HBA_HIGH`, and plus
nothing otherwise; with clock 200 MHz and `HBA_LOW` the central
frequency is `mean(sub_bands)*200/1024 + 100` MHz.  These lines are only
reached if the `TypeError` raised through `self.label()` (see
`beam_xml_prefix`) did not occur. -/
theorem beam_frequency_settings (clock_mhz : ℚ) (frequency_range : String)
    (sub_bands : List ℤ) :
    beam_bandwidth_mhz clock_mhz sub_bands = (sub_bands.length : ℚ) * clock_mhz / 1024 ∧
    beam_central_frequency_mhz clock_mhz frequency_range sub_bands =
      beam_mean_sub_band sub_bands * clock_mhz / 1024 +
        (if frequency_range = "HBA_LOW" then clock_mhz / 2
         else if frequency_range = "HBA_MID" ∨ frequency_range = "HBA_HIGH" then clock_mhz
         else 0) ∧
    beam_central_frequency_mhz 200 "HBA_LOW" sub_bands =
      beam_mean_sub_band sub_bands * 200 / 1024 + 100 := by
  refine ⟨by unfold beam_bandwidth_mhz; ring, ?_, ?_⟩
  · unfold beam_central_frequency_mhz
    by_cases h1 : frequency_range = "HBA_LOW"
    · subst h1
      simp
      ring
    · by_cases h2 : frequency_range = "HBA_MID" ∨ frequency_range = "HBA_HIGH"
      · simp [h1, h2]
        ring
      · simp [h1, h2]
        ring
  · unfold beam_central_frequency_mhz
    simp
    ring

/-- Helper: the `dedup` of a non-empty list whose elements are all equal
to `x` is `[x]`. -/
theorem dedup_of_all_eq {α : Type} [DecidableEq α] (x : α) :
    ∀ l : List α, l ≠ [] → (∀ y ∈ l, y = x) → l.dedup = [x] := by
  intro l
  induction l with
  | nil => intro h _; exact absurd rfl h
  | cons a t ih =>
    intro _ hall
    have hax : a = x := hall a (List.mem_cons_self a t)
    cases t with
    | nil => simp [hax]
    | cons b t2 =>
      have hbt : (b :: t2).dedup = [x] :=
        ih (List.cons_ne_nil b t2) (fun y hy => hall y (List.mem_cons_of_mem a hy))
      have hbx : b = x := hall b (List.mem_cons_of_mem a (List.mem_cons_self b t2))
      have hmem : a ∈ b :: t2 := by
        rw [hax, ← hbx]
        exact List.mem_cons_self b t2
      rw [List.dedup_cons_of_mem hmem, hbt]

/-- C3: `AveragingPipeline.predecessor` with no explicit predecessor
label and a non-empty input list of beams that all have parent
observations: it fails with the "more than one predecessor" `ValueError`
exactly when the parents yield more than one distinct label, and when all
input beams belong to one observation it returns precisely that
observation's label. -/
theorem averaging_pipeline_predecessor (input_data : List InputSAP)
    (hne : input_data ≠ [])
    (hall : ∀ d ∈ input_data, d.parent.isSome) :
    ((predecessor none input_data).isOk ↔
      ¬ 1 < (((input_data.filterMap InputSAP.parent).map ObsNode.label).dedup).length) ∧
    (1 < (((input_data.filterMap InputSAP.parent).map ObsNode.label).dedup).length →
      predecessor none input_data =
        Except.error (PyErr.valueError
          ("AveragingPipeline: more than one predecessor (" ++
           toString (((input_data.filterMap InputSAP.parent).map ObsNode.label).dedup) ++
           ")"))) ∧
    (∀ o : ObsNode, (∀ d ∈ input_data, d.parent = some o) →
      predecessor none input_data = Except.ok o.label) := by
  have hfm_ne : input_data.filterMap InputSAP.parent ≠ [] := by
    cases input_data with
    | nil => exact absurd rfl hne
    | cons d t =>
      have hd := hall d (List.mem_cons_self d t)
      obtain ⟨o, ho⟩ := Option.isSome_iff_exists.mp hd
      simp [List.filterMap_cons, ho]
  have hL_ne : ((input_data.filterMap InputSAP.parent).map ObsNode.label).dedup ≠ [] := by
    intro hcon
    rw [List.dedup_eq_nil, List.map_eq_nil_iff] at hcon
    exact hfm_ne hcon
  have hL_pos : 0 < ((input_data.filterMap InputSAP.parent).map ObsNode.label).dedup.length :=
    List.length_pos.mpr hL_ne
  refine ⟨?_, ?_, ?_⟩
  · by_cases hl :
      ((input_data.filterMap InputSAP.parent).map ObsNode.label).dedup.length = 1
    · simp [predecessor, hl, Except.isOk, Except.toBool]
    · simp [predecessor, hl, Except.isOk, Except.toBool]
      omega
  · intro hgt
    have hl : ¬ ((input_data.filterMap InputSAP.parent).map ObsNode.label).dedup.length = 1 := by
      omega
    simp [predecessor, hl]
  · intro o ho
    have hrepl : ∀ y ∈ (input_data.filterMap InputSAP.parent).map ObsNode.label,
        y = o.label := by
      intro y hy
      obtain ⟨p, hp, hpy⟩ := List.mem_map.mp hy
      obtain ⟨d, hd, hdp⟩ := List.mem_filterMap.mp hp
      have : d.parent = some o := ho d hd
      rw [this] at hdp
      cases hdp
      exact hpy.symm
    have hmap_ne : (input_data.filterMap InputSAP.parent).map ObsNode.label ≠ [] := by
      intro hcon
      rw [List.map_eq_nil_iff] at hcon
      exact hfm_ne hcon
    have hded : ((input_data.filterMap InputSAP.parent).map ObsNode.label).dedup = [o.label] :=
      dedup_of_all_eq o.label _ hmap_ne hrepl
    simp [predecessor, hded]

/-- C3 witness: two input beams attached to two observations labelled `A`
and `B` satisfy the hypotheses, so their predecessor resolution fails
with the "more than one predecessor" error, while two beams of the one
observation `A` resolve to label `A`. -/
theorem averaging_pipeline_predecessor_witness :
    (([⟨some ⟨"A"⟩⟩, ⟨some ⟨"B"⟩⟩] : List InputSAP) ≠ []) ∧
    (((predecessor none [⟨some ⟨"A"⟩⟩, ⟨some ⟨"B"⟩⟩]).isOk ↔
      ¬ 1 < ((([⟨some ⟨"A"⟩⟩, ⟨some ⟨"B"⟩⟩] :
          List InputSAP).filterMap InputSAP.parent).map ObsNode.label).dedup.length) ∧
     (1 < ((([⟨some ⟨"A"⟩⟩, ⟨some ⟨"B"⟩⟩] :
          List InputSAP).filterMap InputSAP.parent).map ObsNode.label).dedup.length →
       predecessor none [⟨some ⟨"A"⟩⟩, ⟨some ⟨"B"⟩⟩] =
         Except.error (PyErr.valueError
           ("AveragingPipeline: more than one predecessor (" ++
            toString ((([⟨some ⟨"A"⟩⟩, ⟨some ⟨"B"⟩⟩] :
              List InputSAP).filterMap InputSAP.parent).map ObsNode.label).dedup ++
            ")"))) ∧
     (∀ o : ObsNode,
       (∀ d ∈ ([⟨some ⟨"A"⟩⟩, ⟨some ⟨"B"⟩⟩] : List InputSAP), d.parent = some o) →
       predecessor none [⟨some ⟨"A"⟩⟩, ⟨some ⟨"B"⟩⟩] = Except.ok o.label)) :=
  ⟨by decide,
   averaging_pipeline_predecessor [⟨some ⟨"A"⟩⟩, ⟨some ⟨"B"⟩⟩] (by decide) (by decide)⟩

end Momxml

namespace Momxml

/-- C8: `Angle.__init__` succeeds exactly when precisely one of the four
optional arguments `shms`, `sdms`, `rad`, `deg` is supplied (for the
sexagesimal forms, with their required `'+'`/`'-'` sign character), and
fails with the arity `ValueError` whenever zero or two or more are
supplied. -/
theorem angle_init_exactly_one (piq : ℚ) (shms sdms : Option (Char × ℚ × ℚ × ℚ))
    (rad deg : Option ℚ)
    (hs : ∀ t : Char × ℚ × ℚ × ℚ, shms = some t → t.1 = '+' ∨ t.1 = '-')
    (hd : ∀ t : Char × ℚ × ℚ × ℚ, sdms = some t → t.1 = '+' ∨ t.1 = '-') :
    ((angle_init piq shms sdms rad deg).isOk ↔
      [shms.isSome, sdms.isSome, rad.isSome, deg.isSome].count true = 1) ∧
    ([shms.isSome, sdms.isSome, rad.isSome, deg.isSome].count true ≠ 1 →
      angle_init piq shms sdms rad deg =
        Except.error (PyErr.valueError "Specify exactly none of shms, sdms, rad, or deg.")) := by
  constructor
  · rcases shms with _ | ⟨sg1, h1q, m1, s1⟩ <;>
      rcases sdms with _ | ⟨sg2, d2, m2, s2⟩ <;>
      rcases rad with _ | r <;>
      rcases deg with _ | dg <;>
      first
      | (simp [angle_init, set_rad, set_deg, Except.isOk, Except.toBool, Except.map,
          Bind.bind, Except.bind]
         done)
      | (rcases hs _ rfl with h | h <;> subst h <;>
          simp [angle_init, set_shms, int_from_sign_char, Except.isOk, Except.toBool,
            Except.map, Bind.bind, Except.bind, pure, Except.pure])
      | (rcases hd _ rfl with h | h <;> subst h <;>
          simp [angle_init, set_sdms, int_from_sign_char, Except.isOk, Except.toBool,
            Except.map, Bind.bind, Except.bind, pure, Except.pure])
  · intro hcnt
    rcases shms with _ | ⟨sg1, h1q, m1, s1⟩ <;>
      rcases sdms with _ | ⟨sg2, d2, m2, s2⟩ <;>
      rcases rad with _ | r <;>
      rcases deg with _ | dg <;>
      simp_all [angle_init]

/-- C8 witness: with only `shms = ('+', 1, 2, 3)` supplied, construction
succeeds; the hypotheses of the theorem hold at this input. -/
theorem angle_init_exactly_one_witness :
    ((angle_init 3 (some ('+', 1, 2, 3)) none none none).isOk ↔
      [(some ('+', (1:ℚ), 2, 3)).isSome, (none : Option (Char × ℚ × ℚ × ℚ)).isSome,
       (none : Option ℚ).isSome, (none : Option ℚ).isSome].count true = 1) ∧
    ([(some ('+', (1:ℚ), 2, 3)).isSome, (none : Option (Char × ℚ × ℚ × ℚ)).isSome,
      (none : Option ℚ).isSome, (none : Option ℚ).isSome].count true ≠ 1 →
      angle_init 3 (some ('+', 1, 2, 3)) none none none =
        Except.error (PyErr.valueError "Specify exactly none of shms, sdms, rad, or deg.")) :=
  angle_init_exactly_one 3 (some ('+', 1, 2, 3)) none none none
    (fun t ht => by cases ht; exact Or.inl rfl)
    (fun t ht => by cases ht)


/-- Helper: the fractional part `y - ⌊y⌋` is non-negative. -/
theorem sub_floor_nonneg (y : ℚ) : 0 ≤ y - (⌊y⌋ : ℚ) := by
  rw [Int.self_sub_floor]
  exact Int.fract_nonneg y

/-- Helper: the fractional part `y - ⌊y⌋` is below one. -/
theorem sub_floor_lt_one (y : ℚ) : y - (⌊y⌋ : ℚ) < 1 := by
  rw [Int.self_sub_floor]
  exact Int.fract_lt_one y

/-- Helper: the floor-based whole/minutes/seconds decomposition of
`as_shms`/`as_sdms` recomposes exactly to the decomposed value. -/
theorem floor_decomp_recompose (x : ℚ) :
    (⌊x⌋ : ℚ) + (⌊(x - (⌊x⌋ : ℚ)) * 60⌋ : ℚ) / 60 +
      (((x - (⌊x⌋ : ℚ)) * 60 - (⌊(x - (⌊x⌋ : ℚ)) * 60⌋ : ℚ)) * 60) / 3600 = x := by
  ring

/-- Helper: recomposing `sgn * piq * (decomposition of x) / k` returns the
original angle when `x = |θ| * k / piq` and `sgn * |θ| = θ`. -/
theorem recompose_scaled (piq k θ x sgn : ℚ) (hpi : piq ≠ 0) (hk : k ≠ 0)
    (hx : x = |θ| * k / piq) (hsgn : sgn * |θ| = θ) :
    sgn * piq * ((⌊x⌋ : ℚ) + (⌊(x - (⌊x⌋ : ℚ)) * 60⌋ : ℚ) / 60 +
      (((x - (⌊x⌋ : ℚ)) * 60 - (⌊(x - (⌊x⌋ : ℚ)) * 60⌋ : ℚ)) * 60) / 3600) / k = θ := by
  rw [floor_decomp_recompose x, hx]
  field_simp
  linear_combination piq * k * hsgn

/-- Helper: `set_shms` applied to a minus sign, unfolded. -/
theorem set_shms_minus (piq h m s : ℚ) :
    set_shms piq '-' h m s =
      Except.ok (((-1 : ℤ) : ℚ) * piq * (h + m / 60 + s / 3600) / 12) := rfl

/-- Helper: `set_shms` applied to a plus sign, unfolded. -/
theorem set_shms_plus (piq h m s : ℚ) :
    set_shms piq '+' h m s =
      Except.ok (((1 : ℤ) : ℚ) * piq * (h + m / 60 + s / 3600) / 12) := rfl

/-- Helper: `set_sdms` applied to a minus sign, unfolded. -/
theorem set_sdms_minus (piq d m s : ℚ) :
    set_sdms piq '-' d m s =
      Except.ok (((-1 : ℤ) : ℚ) * piq * (d + m / 60 + s / 3600) / 180) := rfl

/-- Helper: `set_sdms` applied to a plus sign, unfolded. -/
theorem set_sdms_plus (piq d m s : ℚ) :
    set_sdms piq '+' d m s =
      Except.ok (((1 : ℤ) : ℚ) * piq * (d + m / 60 + s / 3600) / 180) := rfl

/-- Helper: `as_shms` written without its let-bindings. -/
theorem as_shms_eq (piq rad : ℚ) :
    as_shms piq rad =
      (sign_char rad, ⌊|rad| * 12 / piq⌋,
       ⌊(|rad| * 12 / piq - ((⌊|rad| * 12 / piq⌋ : ℤ) : ℚ)) * 60⌋,
       ((|rad| * 12 / piq - ((⌊|rad| * 12 / piq⌋ : ℤ) : ℚ)) * 60 -
         ((⌊(|rad| * 12 / piq - ((⌊|rad| * 12 / piq⌋ : ℤ) : ℚ)) * 60⌋ : ℤ) : ℚ)) * 60) := rfl

/-- Helper: `as_sdms` written without its let-bindings. -/
theorem as_sdms_eq (piq rad : ℚ) :
    as_sdms piq rad =
      (sign_char rad, ⌊|rad| * 180 / piq⌋,
       ⌊(|rad| * 180 / piq - ((⌊|rad| * 180 / piq⌋ : ℤ) : ℚ)) * 60⌋,
       ((|rad| * 180 / piq - ((⌊|rad| * 180 / piq⌋ : ℤ) : ℚ)) * 60 -
         ((⌊(|rad| * 180 / piq - ((⌊|rad| * 180 / piq⌋ : ℤ) : ℚ)) * 60⌋ : ℤ) : ℚ)) * 60) := rfl

/-- Helper: reconstructing through `set_shms ∘ as_shms` is exact. -/
theorem roundtrip_shms_exact (piq θ : ℚ) (hpi : piq ≠ 0) :
    roundtrip_shms piq θ = Except.ok θ := by
  unfold roundtrip_shms
  rw [as_shms_eq]
  by_cases hneg : θ < 0
  · have hsc : sign_char θ = '-' := by simp [sign_char, signum, hneg]
    rw [hsc]
    dsimp only
    rw [set_shms_minus]
    refine congrArg Except.ok ?_
    have hrec := recompose_scaled piq 12 θ (|θ| * 12 / piq) (-1) hpi (by norm_num) rfl
      (by rw [abs_of_neg hneg]; ring)
    push_cast
    linear_combination hrec
  · have hsc : sign_char θ = '+' := by simp [sign_char, signum, hneg]
    rw [hsc]
    dsimp only
    rw [set_shms_plus]
    refine congrArg Except.ok ?_
    have hrec := recompose_scaled piq 12 θ (|θ| * 12 / piq) 1 hpi (by norm_num) rfl
      (by rw [abs_of_nonneg (le_of_not_lt hneg)]; ring)
    push_cast
    linear_combination hrec

/-- Helper: reconstructing through `set_sdms ∘ as_sdms` is exact. -/
theorem roundtrip_sdms_exact (piq θ : ℚ) (hpi : piq ≠ 0) :
    roundtrip_sdms piq θ = Except.ok θ := by
  unfold roundtrip_sdms
  rw [as_sdms_eq]
  by_cases hneg : θ < 0
  · have hsc : sign_char θ = '-' := by simp [sign_char, signum, hneg]
    rw [hsc]
    dsimp only
    rw [set_sdms_minus]
    refine congrArg Except.ok ?_
    have hrec := recompose_scaled piq 180 θ (|θ| * 180 / piq) (-1) hpi (by norm_num) rfl
      (by rw [abs_of_neg hneg]; ring)
    push_cast
    linear_combination hrec
  · have hsc : sign_char θ = '+' := by simp [sign_char, signum, hneg]
    rw [hsc]
    dsimp only
    rw [set_sdms_plus]
    refine congrArg Except.ok ?_
    have hrec := recompose_scaled piq 180 θ (|θ| * 180 / piq) 1 hpi (by norm_num) rfl
      (by rw [abs_of_nonneg (le_of_not_lt hneg)]; ring)
    push_cast
    linear_combination hrec

/-- Helper: the whole part of a non-negative value is non-negative, the
whole minutes of the decomposition lie in `[0, 60)` and the fractional
seconds lie in `[0, 60)`. -/
theorem decomp_ranges (x : ℚ) (hx : 0 ≤ x) :
    0 ≤ ⌊x⌋ ∧
    (0 ≤ ⌊(x - (⌊x⌋ : ℚ)) * 60⌋ ∧ ⌊(x - (⌊x⌋ : ℚ)) * 60⌋ < 60) ∧
    (0 ≤ ((x - (⌊x⌋ : ℚ)) * 60 - (⌊(x - (⌊x⌋ : ℚ)) * 60⌋ : ℚ)) * 60 ∧
     ((x - (⌊x⌋ : ℚ)) * 60 - (⌊(x - (⌊x⌋ : ℚ)) * 60⌋ : ℚ)) * 60 < 60) := by
  refine ⟨Int.floor_nonneg.mpr hx, ⟨?_, ?_⟩, ?_, ?_⟩
  · exact Int.floor_nonneg.mpr (mul_nonneg (sub_floor_nonneg x) (by norm_num))
  · refine Int.floor_lt.mpr ?_
    have h1 := sub_floor_lt_one x
    push_cast
    nlinarith
  · exact mul_nonneg (sub_floor_nonneg ((x - (⌊x⌋ : ℚ)) * 60)) (by norm_num)
  · have h1 := sub_floor_lt_one ((x - (⌊x⌋ : ℚ)) * 60)
    nlinarith

/-- C9: reconstructing an angle from `as_rad` gives the same radian value
exactly; reconstructing through `set_shms ∘ as_shms` and
`set_sdms ∘ as_sdms` succeeds and gives back exactly the same angle (over
exact rational arithmetic, for any positive value of the pi constant);
and the floor-based decompositions yield non-negative whole
hours/degrees, whole minutes in `[0, 60)` and fractional seconds in
`[0, 60)`. -/
theorem angle_accessor_roundtrips (piq θ : ℚ) (hpi : 0 < piq) :
    set_rad (as_rad θ) = θ ∧
    roundtrip_shms piq θ = Except.ok θ ∧
    roundtrip_sdms piq θ = Except.ok θ ∧
    0 ≤ (as_shms piq θ).2.1 ∧
    (0 ≤ (as_shms piq θ).2.2.1 ∧ (as_shms piq θ).2.2.1 < 60) ∧
    (0 ≤ (as_shms piq θ).2.2.2 ∧ (as_shms piq θ).2.2.2 < 60) ∧
    0 ≤ (as_sdms piq θ).2.1 ∧
    (0 ≤ (as_sdms piq θ).2.2.1 ∧ (as_sdms piq θ).2.2.1 < 60) ∧
    (0 ≤ (as_sdms piq θ).2.2.2 ∧ (as_sdms piq θ).2.2.2 < 60) := by
  have hpne : piq ≠ 0 := ne_of_gt hpi
  have hx12 : 0 ≤ |θ| * 12 / piq :=
    div_nonneg (mul_nonneg (abs_nonneg θ) (by norm_num)) (le_of_lt hpi)
  have hx180 : 0 ≤ |θ| * 180 / piq :=
    div_nonneg (mul_nonneg (abs_nonneg θ) (by norm_num)) (le_of_lt hpi)
  have h12 := decomp_ranges (|θ| * 12 / piq) hx12
  have h180 := decomp_ranges (|θ| * 180 / piq) hx180
  refine ⟨rfl, roundtrip_shms_exact piq θ hpne, roundtrip_sdms_exact piq θ hpne,
    ?_, ?_, ?_, ?_, ?_, ?_⟩
  · rw [as_shms_eq]
    exact h12.1
  · rw [as_shms_eq]
    exact h12.2.1
  · rw [as_shms_eq]
    exact h12.2.2
  · rw [as_sdms_eq]
    exact h180.1
  · rw [as_sdms_eq]
    exact h180.2.1
  · rw [as_sdms_eq]
    exact h180.2.2

/-- C9 witness: the round trips at pi approximated by 355/113 and the
angle 5/7 rad. -/
theorem angle_accessor_roundtrips_witness :
    (0 : ℚ) < 355 / 113 ∧
    (set_rad (as_rad (5 / 7 : ℚ)) = 5 / 7 ∧
     roundtrip_shms (355 / 113) (5 / 7) = Except.ok (5 / 7) ∧
     roundtrip_sdms (355 / 113) (5 / 7) = Except.ok (5 / 7) ∧
     0 ≤ (as_shms (355 / 113) (5 / 7)).2.1 ∧
     (0 ≤ (as_shms (355 / 113) (5 / 7)).2.2.1 ∧ (as_shms (355 / 113) (5 / 7)).2.2.1 < 60) ∧
     (0 ≤ (as_shms (355 / 113) (5 / 7)).2.2.2 ∧ (as_shms (355 / 113) (5 / 7)).2.2.2 < 60) ∧
     0 ≤ (as_sdms (355 / 113) (5 / 7)).2.1 ∧
     (0 ≤ (as_sdms (355 / 113) (5 / 7)).2.2.1 ∧ (as_sdms (355 / 113) (5 / 7)).2.2.1 < 60) ∧
     (0 ≤ (as_sdms (355 / 113) (5 / 7)).2.2.2 ∧ (as_sdms (355 / 113) (5 / 7)).2.2.2 < 60)) :=
  ⟨by norm_num, angle_accessor_roundtrips (355 / 113) (5 / 7) (by norm_num)⟩

end Momxml

namespace Momxml

/-- Helper: unfolding equation of `deepcopy_beams` at a cons cell. -/
theorem deepcopy_beams_cons (h : Heap) (a : ℕ) (rest : List ℕ) :
    deepcopy_beams h (a :: rest) =
      (Prod.fst (deepcopy_beams
          ⟨fun x => if x = h.next then h.data a else h.data x, h.next + 1⟩ rest),
       h.next :: Prod.snd (deepcopy_beams
          ⟨fun x => if x = h.next then h.data a else h.data x, h.next + 1⟩ rest)) := by
  simp [deepcopy_beams]

/-- Helper: `deepcopy_beams` only allocates; the heap past the copy has
`next` advanced by the number of copies. -/
theorem deepcopy_beams_next (h : Heap) (addrs : List ℕ) :
    (deepcopy_beams h addrs).1.next = h.next + addrs.length := by
  induction addrs generalizing h with
  | nil => simp [deepcopy_beams]
  | cons a rest ih =>
    rw [deepcopy_beams_cons]
    simp [ih]
    omega

/-- Helper: all addresses returned by `deepcopy_beams` are fresh: at or
above the original allocation frontier. -/
theorem deepcopy_beams_addrs_ge (h : Heap) (addrs : List ℕ) :
    ∀ b ∈ (deepcopy_beams h addrs).2, h.next ≤ b := by
  induction addrs generalizing h with
  | nil => simp [deepcopy_beams]
  | cons a rest ih =>
    rw [deepcopy_beams_cons]
    intro b hb
    rcases List.mem_cons.mp hb with hb | hb
    · omega
    · have := ih ⟨fun x => if x = h.next then h.data a else h.data x, h.next + 1⟩ b hb
      simp at this
      omega

/-- Helper: `deepcopy_beams` leaves every already-allocated object
unchanged. -/
theorem deepcopy_beams_data_low (h : Heap) (addrs : List ℕ) :
    ∀ a < h.next, (deepcopy_beams h addrs).1.data a = h.data a := by
  induction addrs generalizing h with
  | nil => intro a _; rfl
  | cons b rest ih =>
    intro a ha
    rw [deepcopy_beams_cons]
    have h1 :
        (deepcopy_beams ⟨fun x => if x = h.next then h.data b else h.data x, h.next + 1⟩
          rest).1.data a =
        (fun x => if x = h.next then h.data b else h.data x) a := by
      refine ih ⟨fun x => if x = h.next then h.data b else h.data x, h.next + 1⟩ a ?_
      simp
      omega
    rw [h1]
    have hne : a ≠ h.next := by omega
    simp [hne]

/-- Helper: the copies made by `deepcopy_beams` hold exactly the values
the given addresses held at the time of the copy. -/
theorem deepcopy_beams_copies (h : Heap) (addrs : List ℕ)
    (hv : ∀ a ∈ addrs, a < h.next) :
    (deepcopy_beams h addrs).1.derefList (deepcopy_beams h addrs).2 =
      h.derefList addrs := by
  induction addrs generalizing h with
  | nil => simp [deepcopy_beams, Heap.derefList]
  | cons a rest ih =>
    have ha : a < h.next := hv a (List.mem_cons_self a rest)
    rw [deepcopy_beams_cons]
    have hstep :
        (deepcopy_beams ⟨fun x => if x = h.next then h.data a else h.data x, h.next + 1⟩
          rest).1.derefList
          (deepcopy_beams ⟨fun x => if x = h.next then h.data a else h.data x, h.next + 1⟩
            rest).2 =
        Heap.derefList ⟨fun x => if x = h.next then h.data a else h.data x, h.next + 1⟩
          rest := by
      refine ih ⟨fun x => if x = h.next then h.data a else h.data x, h.next + 1⟩ ?_
      intro b hb
      have := hv b (List.mem_cons_of_mem a hb)
      simp
      omega
    have hcopy :
        (deepcopy_beams ⟨fun x => if x = h.next then h.data a else h.data x, h.next + 1⟩
          rest).1.data h.next = h.data a := by
      have := deepcopy_beams_data_low
        ⟨fun x => if x = h.next then h.data a else h.data x, h.next + 1⟩ rest h.next
        (by simp)
      rw [this]
      simp
    have hrest :
        Heap.derefList ⟨fun x => if x = h.next then h.data a else h.data x, h.next + 1⟩
          rest = h.derefList rest := by
      unfold Heap.derefList
      refine List.map_congr_left ?_
      intro b hb
      have hblt := hv b (List.mem_cons_of_mem a hb)
      have hbne : b ≠ h.next := by omega
      simp [hbne]
    unfold Heap.derefList at hstep hrest ⊢
    simp only [List.map_cons]
    rw [hcopy, hstep, hrest]

/-- C10: `Observation.__init__` stores `copy.deepcopy(beam_list)`
(`observation.py` line 340): the stored copies hold the beam values from
construction time, and mutating any previously allocated beam object
(in particular any beam of the caller's list) afterwards leaves the
observation's stored beam list — and therefore the `<children>` XML
emitted from it — unchanged. -/
theorem observation_beam_list_deepcopy (h : Heap) (beam_list : List ℕ)
    (hv : ∀ a ∈ beam_list, a < h.next) (a : ℕ) (ha : a < h.next) (v : BeamV)
    (backend_measurement_type obs_name timestamp backend_attributes mom_dur
      tied_array_beam_list : String) :
    ((observation_init_beam_list h beam_list).1.set a v).derefList
        (observation_init_beam_list h beam_list).2 =
      (observation_init_beam_list h beam_list).1.derefList
        (observation_init_beam_list h beam_list).2 ∧
    (observation_init_beam_list h beam_list).1.derefList
        (observation_init_beam_list h beam_list).2 = h.derefList beam_list ∧
    observation_children_xml ((observation_init_beam_list h beam_list).1.set a v)
        (observation_init_beam_list h beam_list).2 backend_measurement_type obs_name
        timestamp backend_attributes mom_dur tied_array_beam_list =
      observation_children_xml (observation_init_beam_list h beam_list).1
        (observation_init_beam_list h beam_list).2 backend_measurement_type obs_name
        timestamp backend_attributes mom_dur tied_array_beam_list := by
  have hset :
      ((observation_init_beam_list h beam_list).1.set a v).derefList
        (observation_init_beam_list h beam_list).2 =
      (observation_init_beam_list h beam_list).1.derefList
        (observation_init_beam_list h beam_list).2 := by
    unfold Heap.derefList Heap.set
    refine List.map_congr_left ?_
    intro b hb
    have hge : h.next ≤ b := deepcopy_beams_addrs_ge h beam_list b hb
    have hbne : b ≠ a := by omega
    simp [hbne]
  refine ⟨hset, deepcopy_beams_copies h beam_list hv, ?_⟩
  unfold observation_children_xml
  rw [hset]

/-- C10 witness: a one-beam heap; overwriting the caller's beam object at
address 0 after construction leaves the stored copy (at address 1) and
the emitted children XML unchanged. -/
theorem observation_beam_list_deepcopy_witness :
    ((observation_init_beam_list ⟨fun _ => ⟨"Cyg A", 0, 0, "77..324", "Target"⟩, 1⟩
          [0]).1.set 0 ⟨"3C 48", 1, 1, "100,101", "Calibration"⟩).derefList
        (observation_init_beam_list ⟨fun _ => ⟨"Cyg A", 0, 0, "77..324", "Target"⟩, 1⟩
          [0]).2 =
      (observation_init_beam_list ⟨fun _ => ⟨"Cyg A", 0, 0, "77..324", "Target"⟩, 1⟩
          [0]).1.derefList
        (observation_init_beam_list ⟨fun _ => ⟨"Cyg A", 0, 0, "77..324", "Target"⟩, 1⟩
          [0]).2 ∧
    (observation_init_beam_list ⟨fun _ => ⟨"Cyg A", 0, 0, "77..324", "Target"⟩, 1⟩
        [0]).1.derefList
      (observation_init_beam_list ⟨fun _ => ⟨"Cyg A", 0, 0, "77..324", "Target"⟩, 1⟩
        [0]).2 =
      Heap.derefList ⟨fun _ => ⟨"Cyg A", 0, 0, "77..324", "Target"⟩, 1⟩ [0] ∧
    observation_children_xml
        ((observation_init_beam_list ⟨fun _ => ⟨"Cyg A", 0, 0, "77..324", "Target"⟩, 1⟩
            [0]).1.set 0 ⟨"3C 48", 1, 1, "100,101", "Calibration"⟩)
        (observation_init_beam_list ⟨fun _ => ⟨"Cyg A", 0, 0, "77..324", "Target"⟩, 1⟩
          [0]).2 "lofar:UVMeasurementType" "Main observation" "2013-10-20T18:05:00"
        "uvMeasurementAttributes" "PT10M00S" "" =
      observation_children_xml
        (observation_init_beam_list ⟨fun _ => ⟨"Cyg A", 0, 0, "77..324", "Target"⟩, 1⟩
          [0]).1
        (observation_init_beam_list ⟨fun _ => ⟨"Cyg A", 0, 0, "77..324", "Target"⟩, 1⟩
          [0]).2 "lofar:UVMeasurementType" "Main observation" "2013-10-20T18:05:00"
        "uvMeasurementAttributes" "PT10M00S" "" :=
  observation_beam_list_deepcopy ⟨fun _ => ⟨"Cyg A", 0, 0, "77..324", "Target"⟩, 1⟩
    [0] (by decide) 0 (by decide) ⟨"3C 48", 1, 1, "100,101", "Calibration"⟩
    "lofar:UVMeasurementType" "Main observation" "2013-10-20T18:05:00"
    "uvMeasurementAttributes" "PT10M00S" ""

end Momxml

namespace Momxml

/-- C5: no beam XML frequency settings are ever emitted.  At the
`beam.py` doctest's own example — a beam named `Cyg A` appended to a
parent observation stub (children list `['Cyg A']`, clock 200 MHz,
frequency range `HBA_LOW`) — `Beam.xml_prefix` raises `TypeError`:
`self.label()` (line 142 on the default backend path, line 157
otherwise) calls `parent.child_id(self)`, which subscripts the builtin
`id` (`observationspecificationbase.py` line 161), before the bandwidth
and central frequency of lines 144-151 are computed or emitted; the
claim instead requires XML carrying `len(subbands)*clock/1024` MHz and
`mean(subbands)*200/1024 + 100` MHz. -/
theorem beam_xml_prefix_raises_type_error :
    beam_xml_prefix "Observation" (some ["Cyg A"]) "Cyg A" "Cyg A" (200 : ℚ) "HBA_LOW"
        [77, 78, 79] =
      Except.error
        (PyErr.typeError "builtin_function_or_method object is not subscriptable") := by
  decide

end Momxml
